import Mathlib

/-!
Shallow embedding of the appointment scheduling and conflict-resolution
engine of a telemedicine backend (a Django REST application).

Conventions of the embedding:
* a time of day is the number of minutes since midnight (0 .. 1439);
  Python `datetime.time` values compare exactly like these numbers;
* a calendar date is a day index counted from a Monday, so
  `weekday d = d % 7` agrees with Python `date.weekday()` (Monday = 0);
* the current wall clock (`datetime.now()`) is passed explicitly as a
  pair `(nowD, nowT)` of day index and minute of day;
* fallible request handlers return `Except String` / `Option`, where the
  `String` is the exact user-facing error message built by the source.

Each definition is translated from the corresponding Python function in
`appointments/models.py`, `appointments/serializers.py` or
`appointments/views.py`; the doc comments cite the origin.
-/

/-- Appointment status values, `Appointment.STATUS_CHOICES` in
`appointments/models.py`. -/
inductive Status where
  | scheduled
  | confirmed
  | in_progress
  | completed
  | cancelled
deriving DecidableEq

/-- The statuses every query of the source treats as active:
`status__in=["scheduled", "confirmed", "in_progress"]`. -/
def Status.isActive : Status → Bool
  | .scheduled => true
  | .confirmed => true
  | .in_progress => true
  | .completed => false
  | .cancelled => false

/-- Appointment record, class `Appointment` in `appointments/models.py`.
Foreign keys are carried as numeric ids; fields not read by the
scheduling logic (appointment type, meeting link, timestamps) are
omitted. -/
structure Appointment where
  id : Nat
  doctor : Nat
  patient : Nat
  scheduled_date : Nat
  scheduled_time : Nat
  status : Status
  reason : String
  notes : String
  prescription : String
deriving DecidableEq

/-- Doctor profile, class `Doctor` in `appointments/models.py`, reduced
to the fields the scheduling logic reads. -/
structure Doctor where
  id : Nat
  available : Bool
deriving DecidableEq

/-- Weekly availability row, class `DoctorSchedule` in
`appointments/models.py`. -/
structure DoctorSchedule where
  doctor : Nat
  day_of_week : Nat
  start_time : Nat
  end_time : Nat
  is_available : Bool
deriving DecidableEq

/-- The database contents the scheduling logic queries: the
`DoctorSchedule` table and the `Appointment` table. -/
structure SysState where
  schedules : List DoctorSchedule
  appointments : List Appointment
deriving DecidableEq

/-- Python `date.weekday()` under the day-index convention (day 0 is a
Monday). -/
def weekday (d : Nat) : Nat := d % 7

/-- Python `date.strftime("%A")` for a weekday number. -/
def dayName (w : Nat) : String :=
  match w % 7 with
  | 0 => "Monday"
  | 1 => "Tuesday"
  | 2 => "Wednesday"
  | 3 => "Thursday"
  | 4 => "Friday"
  | 5 => "Saturday"
  | _ => "Sunday"

/-- Two-digit zero padding, as produced by `strftime`. -/
def pad2 (n : Nat) : String :=
  if n < 10 then "0" ++ toString n else toString n

/-- Python `time.strftime("%H:%M")` for a minute-of-day value. -/
def fmtTime (t : Nat) : String :=
  pad2 (t / 60) ++ ":" ++ pad2 (t % 60)

/-- The comparison `datetime.combine(date, time) < datetime.now()` used
by both serializers: lexicographic on (day, minute). -/
def isPast (d t nowD nowT : Nat) : Bool :=
  d < nowD || (d == nowD && t < nowT)

/-- End of a 30-minute slot as the source computes it in
`Appointment.check_overlap` (`appointments/models.py`):
`datetime.combine(date, time) + timedelta(minutes=30)` followed by
`.time()`, which discards the day component and therefore wraps around
midnight. -/
def endTimeOf (t : Nat) : Nat := (t + 30) % 1440

/-- The pairwise interval test inside `Appointment.check_overlap`:
`not (appointment_end_time <= apt.scheduled_time or
self.scheduled_time >= apt_end_time)`. -/
def overlapsPair (selfTime aptTime : Nat) : Bool :=
  !(decide (endTimeOf selfTime ≤ aptTime) || decide (selfTime ≥ endTimeOf aptTime))

/-- The `.exclude(id=self.id if self.id else None)` clause of
`Appointment.check_overlap`: a row is excluded when the unsaved instance
carries an id equal to the row id; `exclude(id=None)` excludes no row. -/
def excludedId (self_id : Option Nat) (a : Appointment) : Bool :=
  match self_id with
  | some i => a.id == i
  | none => false

/-- `Appointment.check_overlap` (`appointments/models.py`).  The
receiver is an unsaved instance described by its id (if any), doctor,
patient, date and time; `appts` is the `Appointment` table. -/
def check_overlap (appts : List Appointment) (self_id : Option Nat)
    (self_doctor self_patient self_date self_time : Nat) : Bool :=
  let existing_doctor_appts := appts.filter fun a =>
    a.doctor == self_doctor && a.scheduled_date == self_date &&
    a.status.isActive && !(excludedId self_id a)
  let overlapping_doctor :=
    existing_doctor_appts.any fun a => overlapsPair self_time a.scheduled_time
  let existing_patient_appts := appts.filter fun a =>
    a.patient == self_patient && a.scheduled_date == self_date &&
    a.status.isActive && !(excludedId self_id a)
  let overlapping_patient :=
    existing_patient_appts.any fun a => overlapsPair self_time a.scheduled_time
  overlapping_doctor || overlapping_patient

/-- The schedule lookup shared by both serializers and the availability
view: `DoctorSchedule.objects.filter(doctor=..., day_of_week=...,
is_available=True).first()` (at most one row exists per doctor and day
by the `unique_together` constraint). -/
def findSchedule (schedules : List DoctorSchedule) (doctorId day : Nat) :
    Option DoctorSchedule :=
  schedules.find? fun s =>
    s.doctor == doctorId && s.day_of_week == day && s.is_available

/-- `AppointmentCreateSerializer.validate`
(`appointments/serializers.py`).  `request_user` is the authenticated
patient; the `doctor` object has already been resolved by field
validation. -/
def validateCreate (st : SysState) (doctor : Doctor)
    (scheduled_date scheduled_time request_user nowD nowT : Nat) :
    Except String Unit :=
  if !doctor.available then
    .error "Doctor is not available"
  else if isPast scheduled_date scheduled_time nowD nowT then
    .error "Cannot book appointments in the past"
  else
    match findSchedule st.schedules doctor.id (weekday scheduled_date) with
    | none =>
        .error ("Doctor is not available on " ++ dayName (weekday scheduled_date))
    | some schedule =>
        if scheduled_time < schedule.start_time ∨ scheduled_time ≥ schedule.end_time then
          .error ("Appointment time must be between " ++ fmtTime schedule.start_time ++
            " and " ++ fmtTime schedule.end_time)
        else if check_overlap st.appointments none doctor.id request_user
            scheduled_date scheduled_time then
          .error "This time slot conflicts with an existing appointment. Please choose another time."
        else
          .ok ()

/-- The validated payload of `AppointmentUpdateSerializer`: every field
is optional (`required: False`). -/
structure UpdateAttrs where
  scheduled_date : Option Nat
  scheduled_time : Option Nat
  status : Option Status
  reason : Option String
  notes : Option String
  prescription : Option String
deriving DecidableEq

/-- `AppointmentUpdateSerializer.validate`
(`appointments/serializers.py`).  `inst` is the appointment being
updated, `doctor` the object `inst.doctor` resolves to.  All booking
checks run only when the payload touches `scheduled_date` or
`scheduled_time`; the temporary instance used for the overlap check
carries `id=instance.id` so the row is excluded from the query. -/
def validateUpdate (st : SysState) (doctor : Doctor) (inst : Appointment)
    (attrs : UpdateAttrs) (nowD nowT : Nat) : Except String UpdateAttrs :=
  let scheduled_date := attrs.scheduled_date.getD inst.scheduled_date
  let scheduled_time := attrs.scheduled_time.getD inst.scheduled_time
  if attrs.scheduled_date.isSome || attrs.scheduled_time.isSome then
    if !doctor.available then
      .error "Doctor is not available"
    else if isPast scheduled_date scheduled_time nowD nowT then
      .error "Cannot reschedule appointments to the past"
    else
      match findSchedule st.schedules doctor.id (weekday scheduled_date) with
      | none =>
          .error ("Doctor is not available on " ++ dayName (weekday scheduled_date))
      | some schedule =>
          if scheduled_time < schedule.start_time ∨ scheduled_time ≥ schedule.end_time then
            .error ("Appointment time must be between " ++ fmtTime schedule.start_time ++
              " and " ++ fmtTime schedule.end_time)
          else if check_overlap st.appointments (some inst.id) doctor.id
              inst.patient scheduled_date scheduled_time then
            .error "This time slot conflicts with an existing appointment. Please choose another time."
          else
            .ok attrs
  else
    .ok attrs

/-- Net effect of `AppointmentDetailView.perform_update` followed by
`serializer.save()`: every validated field overrides the stored one. -/
def applyUpdate (inst : Appointment) (attrs : UpdateAttrs) : Appointment :=
  { inst with
    scheduled_date := attrs.scheduled_date.getD inst.scheduled_date
    scheduled_time := attrs.scheduled_time.getD inst.scheduled_time
    status := attrs.status.getD inst.status
    reason := attrs.reason.getD inst.reason
    notes := attrs.notes.getD inst.notes
    prescription := attrs.prescription.getD inst.prescription }

/-- `AppointmentDetailView.destroy` (`appointments/views.py`): an
unconditional soft delete.  The status is set to `cancelled` and a
success message is returned, whatever the previous status was. -/
def destroy (inst : Appointment) : String × Appointment :=
  ("Appointment cancelled successfully", { inst with status := .cancelled })

/-- `AppointmentListView.perform_create` plus
`serializer.save(patient=request.user)`: append a new `scheduled`
appointment row; `newId` is the primary key assigned by the store. -/
def perform_create (st : SysState) (newId : Nat) (doctor : Doctor)
    (scheduled_date scheduled_time request_user : Nat) : SysState :=
  { st with appointments := st.appointments ++
      [{ id := newId, doctor := doctor.id, patient := request_user,
         scheduled_date := scheduled_date, scheduled_time := scheduled_time,
         status := .scheduled, reason := "", notes := "", prescription := "" }] }

/-- One step of the slot loop in `doctor_availability`
(`appointments/views.py`):
`hour = current.hour; minute = current.minute + 30;
if minute >= 60: hour += 1; minute = 0`. -/
def nextBoundary (current : Nat) : Nat :=
  let hour := current / 60
  let minute := current % 60 + 30
  if minute ≥ 60 then (hour + 1) * 60 else hour * 60 + minute

/-- The `while current < end_time` loop of `doctor_availability`.  The
result `none` models the `ValueError` raised by `time(hour, minute)`
when the computed hour reaches 24 (the whole request fails, no slot
list is produced).  `fuel` is a structural bound on the number of
iterations; the boundary strictly increases each step, so an initial
fuel of `end_time + 1` is never exhausted. -/
def slotsGo (booked : List Nat) (end_time : Nat) : Nat → Nat → Option (List Nat)
  | 0, _ => none
  | fuel + 1, current =>
    if current < end_time then
      let next := nextBoundary current
      if next ≥ 1440 then none
      else
        match slotsGo booked end_time fuel next with
        | none => none
        | some rest => some (if current ∈ booked then rest else current :: rest)
    else some []

/-- Response payload of the `doctor_availability` view, reduced to the
fields the claims mention. -/
structure AvailabilityResponse where
  available_slots : List Nat
  message : Option String
deriving DecidableEq

/-- `doctor_availability` (`appointments/views.py`), after doctor and
date resolution.  A missing or disabled schedule row yields an empty
slot list together with the explanatory message; otherwise the slot
loop runs over the window, skipping times already booked by an active
appointment.  `none` means the request raises instead of answering. -/
def doctor_availability (st : SysState) (doctor : Doctor) (date : Nat) :
    Option AvailabilityResponse :=
  match findSchedule st.schedules doctor.id (weekday date) with
  | none =>
      some { available_slots := []
             message := some ("Doctor is not available on " ++ dayName (weekday date)) }
  | some schedule =>
      let existing_appointments := (st.appointments.filter fun a =>
        a.doctor == doctor.id && a.scheduled_date == date && a.status.isActive).map
        (fun a => a.scheduled_time)
      match slotsGo existing_appointments schedule.end_time
          (schedule.end_time + 1) schedule.start_time with
      | none => none
      | some slots => some { available_slots := slots, message := none }

/-- Modelled from the spec: the overlap formula of the Conflict Checker
section, `[a, a+30)` and `[b, b+30)` overlap iff
`a < b + 30 AND b < a + 30`, computed on un-wrapped wall-clock minute
values. -/
def spec_overlap (a b : Nat) : Bool :=
  decide (a < b + 30) && decide (b < a + 30)

/-- Modelled from the spec: violation of invariant I1, two distinct
active appointments of one doctor on one date whose half-hour intervals
truly overlap. -/
def spec_doctor_double_booked (appts : List Appointment) : Bool :=
  appts.any fun a => appts.any fun b =>
    a.id != b.id && a.doctor == b.doctor &&
    a.scheduled_date == b.scheduled_date &&
    a.status.isActive && b.status.isActive &&
    spec_overlap a.scheduled_time b.scheduled_time

/-! ### Helper lemmas -/

theorem validateUpdate_skip (st : SysState) (doctor : Doctor) (inst : Appointment)
    (stat : Option Status) (r n p : Option String) (nowD nowT : Nat) :
    validateUpdate st doctor inst ⟨none, none, stat, r, n, p⟩ nowD nowT =
      .ok ⟨none, none, stat, r, n, p⟩ := by
  simp [validateUpdate]

theorem validateCreate_ok_inv {st : SysState} {doctor : Doctor}
    {d t u nowD nowT : Nat}
    (h : validateCreate st doctor d t u nowD nowT = .ok ()) :
    doctor.available = true ∧ isPast d t nowD nowT = false ∧
    ∃ s, findSchedule st.schedules doctor.id (weekday d) = some s ∧
      ¬(t < s.start_time ∨ t ≥ s.end_time) ∧
      check_overlap st.appointments none doctor.id u d t = false := by
  by_cases h1 : doctor.available = true
  · by_cases h2 : isPast d t nowD nowT = true
    · simp [validateCreate, h1, h2] at h
    · cases hs : findSchedule st.schedules doctor.id (weekday d) with
      | none => simp [validateCreate, h1, h2, hs] at h
      | some s =>
        by_cases h4 : (t < s.start_time ∨ t ≥ s.end_time)
        · simp [validateCreate, h1, h2, hs, h4] at h
        · by_cases h5 : check_overlap st.appointments none doctor.id u d t = true
          · simp [validateCreate, h1, h2, hs, h4, h5] at h
          · exact ⟨h1, by simpa using h2, s, rfl, h4, by simpa using h5⟩
  · simp [validateCreate, h1] at h

/-! ### Claims -/

/-- C1, counterexample: cancelling a `completed` appointment does not
return an `AlreadyFinalized` error and does not leave the appointment
unchanged: `destroy` reports success and forces the status to
`cancelled`; moreover a status-only update moves the appointment from
`completed` back to `scheduled`, so the terminal states are not
closed under status updates. -/
theorem C1_counterexample :
    destroy ⟨1, 1, 10, 7, 540, .completed, "", "", ""⟩ =
      ("Appointment cancelled successfully", ⟨1, 1, 10, 7, 540, .cancelled, "", "", ""⟩) ∧
    (destroy ⟨1, 1, 10, 7, 540, .completed, "", "", ""⟩).2 ≠
      ⟨1, 1, 10, 7, 540, .completed, "", "", ""⟩ ∧
    validateUpdate ⟨[], []⟩ ⟨1, true⟩ ⟨1, 1, 10, 7, 540, .completed, "", "", ""⟩
        ⟨none, none, some .scheduled, none, none, none⟩ 0 0 =
      .ok ⟨none, none, some .scheduled, none, none, none⟩ ∧
    (applyUpdate ⟨1, 1, 10, 7, 540, .completed, "", "", ""⟩
        ⟨none, none, some .scheduled, none, none, none⟩).status = .scheduled := by
  exact ⟨rfl, by decide, validateUpdate_skip .., rfl⟩

/-- C1, amended: a cancellation request never errors; for every
appointment, including completed or cancelled ones, it sets the status
to `cancelled` and reports success, and a status-only update is
accepted and applied, so an appointment can be moved out of `completed`
or `cancelled`. -/
theorem C1_amended_lifecycle (a : Appointment) (st : SysState) (doctor : Doctor)
    (nowD nowT : Nat) :
    destroy a = ("Appointment cancelled successfully", { a with status := .cancelled }) ∧
    validateUpdate st doctor a ⟨none, none, some .scheduled, none, none, none⟩ nowD nowT =
      .ok ⟨none, none, some .scheduled, none, none, none⟩ ∧
    (applyUpdate a ⟨none, none, some .scheduled, none, none, none⟩).status = .scheduled :=
  ⟨rfl, validateUpdate_skip .., rfl⟩

/-- C2, counterexample: the conflict check and the appointment write are
separate steps with no atomic guard, so in the interleaving
check-A, check-B, write-A, write-B of two book operations for the same
doctor, date and time both checks pass against the initial store, both
writes land, and the resulting store holds two overlapping active
appointments of one doctor — both callers succeed. -/
theorem C2_counterexample :
    validateCreate ⟨[⟨1, 0, 540, 720, true⟩], []⟩ ⟨1, true⟩ 7 540 10 0 0 = .ok () ∧
    validateCreate ⟨[⟨1, 0, 540, 720, true⟩], []⟩ ⟨1, true⟩ 7 540 11 0 0 = .ok () ∧
    spec_doctor_double_booked
      (perform_create (perform_create ⟨[⟨1, 0, 540, 720, true⟩], []⟩ 100 ⟨1, true⟩ 7 540 10)
        101 ⟨1, true⟩ 7 540 11).appointments = true :=
  ⟨rfl, rfl, rfl⟩

/-- C2, amended: when the two book operations execute sequentially (the
write of the first completes before the check of the second), the
second caller is rejected — but with the generic conflict message, not
a dedicated DoctorConflict or PatientConflict reason. -/
theorem C2_sequential_conflict (st : SysState) (doctor : Doctor)
    (d t u1 u2 newId nowD nowT : Nat)
    (hok : validateCreate st doctor d t u1 nowD nowT = .ok ())
    (ht : t + 30 < 1440) :
    validateCreate (perform_create st newId doctor d t u1) doctor d t u2 nowD nowT =
      .error "This time slot conflicts with an existing appointment. Please choose another time." := by
  obtain ⟨h1, h2, s, hs, h4, -⟩ := validateCreate_ok_inv hok
  have hmod : (t + 30) % 1440 = t + 30 := Nat.mod_eq_of_lt ht
  have hovl : check_overlap (perform_create st newId doctor d t u1).appointments
      none doctor.id u2 d t = true := by
    simp [perform_create, check_overlap, List.filter_append, List.any_append,
      overlapsPair, endTimeOf, excludedId, Status.isActive, hmod]
  have hsched : findSchedule (perform_create st newId doctor d t u1).schedules
      doctor.id (weekday d) = some s := by
    simpa [perform_create] using hs
  simp [validateCreate, h1, h2, hsched, h4, hovl]

theorem C2_witness :
    validateCreate (perform_create ⟨[⟨1, 0, 540, 720, true⟩], []⟩ 100 ⟨1, true⟩ 7 540 10)
        ⟨1, true⟩ 7 540 11 0 0 =
      .error "This time slot conflicts with an existing appointment. Please choose another time." :=
  C2_sequential_conflict ⟨[⟨1, 0, 540, 720, true⟩], []⟩ ⟨1, true⟩ 7 540 10 11 100 0 0
    rfl (by decide)

/-- C3, counterexample: in all four rejection situations — a booking
blocked purely by a doctor-side overlap (existing appointment of the
same doctor, different patient), a booking blocked purely by a
patient-side overlap (existing appointment of the same patient with a
different doctor), and a reschedule blocked by each of the two causes —
the caller receives the identical generic error message, so the
rejection does not distinguish DoctorConflict from PatientConflict. -/
theorem C3_counterexample :
    validateCreate ⟨[⟨1, 0, 540, 720, true⟩], [⟨1, 1, 99, 7, 540, .scheduled, "", "", ""⟩]⟩
        ⟨1, true⟩ 7 540 10 0 0 =
      .error "This time slot conflicts with an existing appointment. Please choose another time." ∧
    validateCreate ⟨[⟨1, 0, 540, 720, true⟩], [⟨2, 2, 10, 7, 540, .scheduled, "", "", ""⟩]⟩
        ⟨1, true⟩ 7 540 10 0 0 =
      .error "This time slot conflicts with an existing appointment. Please choose another time." ∧
    validateUpdate
        ⟨[⟨1, 0, 540, 720, true⟩],
         [⟨5, 1, 10, 7, 600, .scheduled, "", "", ""⟩,
          ⟨6, 1, 99, 7, 540, .scheduled, "", "", ""⟩]⟩
        ⟨1, true⟩ ⟨5, 1, 10, 7, 600, .scheduled, "", "", ""⟩
        ⟨some 7, some 540, none, none, none, none⟩ 0 0 =
      .error "This time slot conflicts with an existing appointment. Please choose another time." ∧
    validateUpdate
        ⟨[⟨1, 0, 540, 720, true⟩],
         [⟨5, 1, 10, 7, 600, .scheduled, "", "", ""⟩,
          ⟨7, 2, 10, 7, 540, .scheduled, "", "", ""⟩]⟩
        ⟨1, true⟩ ⟨5, 1, 10, 7, 600, .scheduled, "", "", ""⟩
        ⟨some 7, some 540, none, none, none, none⟩ 0 0 =
      .error "This time slot conflicts with an existing appointment. Please choose another time." :=
  ⟨rfl, rfl, rfl, rfl⟩

/-- C3, amended: every booking and every reschedule rejected because of
an overlapping active appointment — whether the overlap is with
another appointment of the same doctor or of the same patient —
receives the single generic reason used by the source. -/
theorem C3_generic_conflict_message (st : SysState) (doctor : Doctor)
    (inst : Appointment) (d t u nowD nowT : Nat) (s : DoctorSchedule) :
    (doctor.available = true → isPast d t nowD nowT = false →
      findSchedule st.schedules doctor.id (weekday d) = some s →
      ¬(t < s.start_time ∨ t ≥ s.end_time) →
      check_overlap st.appointments none doctor.id u d t = true →
      validateCreate st doctor d t u nowD nowT =
        .error "This time slot conflicts with an existing appointment. Please choose another time.") ∧
    (doctor.available = true → isPast d t nowD nowT = false →
      findSchedule st.schedules doctor.id (weekday d) = some s →
      ¬(t < s.start_time ∨ t ≥ s.end_time) →
      check_overlap st.appointments (some inst.id) doctor.id inst.patient d t = true →
      validateUpdate st doctor inst ⟨some d, some t, none, none, none, none⟩ nowD nowT =
        .error "This time slot conflicts with an existing appointment. Please choose another time.") := by
  constructor
  · intro h1 h2 h3 h4 h5
    simp [validateCreate, h1, h2, h3, h4, h5]
  · intro h1 h2 h3 h4 h5
    simp [validateUpdate, h1, h2, h3, h4, h5]

theorem C3_witness :
    validateCreate ⟨[⟨1, 0, 540, 720, true⟩], [⟨2, 2, 10, 7, 540, .scheduled, "", "", ""⟩]⟩
        ⟨1, true⟩ 7 540 10 0 0 =
      .error "This time slot conflicts with an existing appointment. Please choose another time." ∧
    validateUpdate
        ⟨[⟨1, 0, 540, 720, true⟩],
         [⟨5, 1, 10, 7, 600, .scheduled, "", "", ""⟩,
          ⟨7, 2, 10, 7, 540, .scheduled, "", "", ""⟩]⟩
        ⟨1, true⟩ ⟨5, 1, 10, 7, 600, .scheduled, "", "", ""⟩
        ⟨some 7, some 540, none, none, none, none⟩ 0 0 =
      .error "This time slot conflicts with an existing appointment. Please choose another time." :=
  ⟨(C3_generic_conflict_message
      ⟨[⟨1, 0, 540, 720, true⟩], [⟨2, 2, 10, 7, 540, .scheduled, "", "", ""⟩]⟩
      ⟨1, true⟩ ⟨0, 0, 0, 0, 0, .scheduled, "", "", ""⟩ 7 540 10 0 0
      ⟨1, 0, 540, 720, true⟩).1 rfl rfl rfl (by decide) rfl,
   (C3_generic_conflict_message
      ⟨[⟨1, 0, 540, 720, true⟩],
       [⟨5, 1, 10, 7, 600, .scheduled, "", "", ""⟩,
        ⟨7, 2, 10, 7, 540, .scheduled, "", "", ""⟩]⟩
      ⟨1, true⟩ ⟨5, 1, 10, 7, 600, .scheduled, "", "", ""⟩ 7 540 10 0 0
      ⟨1, 0, 540, 720, true⟩).2 rfl rfl rfl (by decide) rfl⟩

/-- C4: the conflict checker computes slot ends with a wrap around
midnight, so for a proposed time a = 23:45 (1425) against an existing
active appointment of the same doctor at b = 23:45 the source reports
no overlap, although the specified formula a < b + 30 AND b < a + 30
reports one — the claimed equivalence fails for late-night times. -/
theorem C4_midnight_wrap_bug :
    check_overlap [⟨1, 1, 99, 7, 1425, .scheduled, "", "", ""⟩] none 1 10 7 1425 = false ∧
    spec_overlap 1425 1425 = true :=
  ⟨rfl, rfl⟩

/-- C5: for the Monday window 09:00 to 12:00 with one scheduled
appointment at 09:30, the availability view returns exactly the slots
09:00, 10:00, 10:30, 11:00, 11:30 (in minutes: 540, 600, 630, 660,
690), excluding 09:30; and whenever no enabled schedule row exists for
the weekday it returns an empty slot list with the explanatory
message. -/
theorem C5_slot_generation :
    doctor_availability
        ⟨[⟨1, 0, 540, 720, true⟩], [⟨1, 1, 10, 7, 570, .scheduled, "", "", ""⟩]⟩
        ⟨1, true⟩ 7 =
      some ⟨[540, 600, 630, 660, 690], none⟩ ∧
    ∀ (st : SysState) (doctor : Doctor) (date : Nat),
      findSchedule st.schedules doctor.id (weekday date) = none →
      doctor_availability st doctor date =
        some ⟨[], some ("Doctor is not available on " ++ dayName (weekday date))⟩ := by
  refine ⟨rfl, ?_⟩
  intro st doctor date h
  simp [doctor_availability, h]

theorem C5_witness :
    doctor_availability ⟨[], []⟩ ⟨1, true⟩ 6 =
      some ⟨[], some ("Doctor is not available on " ++ dayName (weekday 6))⟩ :=
  C5_slot_generation.2 ⟨[], []⟩ ⟨1, true⟩ 6 rfl

/-- C6: the slot loop clamps the minute field to zero on overflow
instead of carrying the remainder, so the boundary following 09:45
(585) is 10:00 (600), not 09:45 plus 30 minutes (10:15); a window
09:45 to 11:15 therefore yields the boundaries 09:45, 10:00, 10:30,
11:00 instead of strict 30-minute steps. -/
theorem C6_minute_overflow_bug :
    nextBoundary 585 = 600 ∧ nextBoundary 585 ≠ 585 + 30 ∧
    doctor_availability ⟨[⟨1, 0, 585, 675, true⟩], []⟩ ⟨1, true⟩ 7 =
      some ⟨[585, 600, 630, 660], none⟩ :=
  ⟨rfl, by decide, rfl⟩

/-- C7: when an appointment is rescheduled to a slot that no other
active appointment of the same doctor or patient overlaps, validation
succeeds: the instance itself is excluded from both overlap queries by
its id, so its own current slot is never flagged as a conflict — even
when the new time overlaps the old one. -/
theorem C7_reschedule_excludes_self (st : SysState) (doctor : Doctor)
    (inst : Appointment) (d t nowD nowT : Nat) (s : DoctorSchedule)
    (h1 : doctor.available = true)
    (h2 : isPast d t nowD nowT = false)
    (h3 : findSchedule st.schedules doctor.id (weekday d) = some s)
    (h4 : ¬(t < s.start_time ∨ t ≥ s.end_time))
    (h5 : ∀ a ∈ st.appointments, a.id ≠ inst.id → a.status.isActive = true →
      a.scheduled_date = d → (a.doctor = doctor.id ∨ a.patient = inst.patient) →
      overlapsPair t a.scheduled_time = false) :
    validateUpdate st doctor inst ⟨some d, some t, none, none, none, none⟩ nowD nowT =
      .ok ⟨some d, some t, none, none, none, none⟩ := by
  have hovl : check_overlap st.appointments (some inst.id) doctor.id
      inst.patient d t = false := by
    simp only [check_overlap, Bool.or_eq_false_iff]
    constructor
    · rw [List.any_eq_false]
      intro a ha
      rw [List.mem_filter] at ha
      obtain ⟨hmem, hcond⟩ := ha
      simp only [Bool.and_eq_true, beq_iff_eq, Bool.not_eq_true', excludedId,
        beq_eq_false_iff_ne] at hcond
      obtain ⟨⟨⟨hdoc, hdate⟩, hact⟩, hid⟩ := hcond
      simp [h5 a hmem hid hact hdate (Or.inl hdoc)]
    · rw [List.any_eq_false]
      intro a ha
      rw [List.mem_filter] at ha
      obtain ⟨hmem, hcond⟩ := ha
      simp only [Bool.and_eq_true, beq_iff_eq, Bool.not_eq_true', excludedId,
        beq_eq_false_iff_ne] at hcond
      obtain ⟨⟨⟨hpat, hdate⟩, hact⟩, hid⟩ := hcond
      simp [h5 a hmem hid hact hdate (Or.inr hpat)]
  simp [validateUpdate, h1, h2, h3, h4, hovl]

theorem C7_witness :
    validateUpdate ⟨[⟨1, 0, 540, 720, true⟩], [⟨5, 1, 10, 7, 600, .scheduled, "", "", ""⟩]⟩
        ⟨1, true⟩ ⟨5, 1, 10, 7, 600, .scheduled, "", "", ""⟩
        ⟨some 7, some 615, none, none, none, none⟩ 0 0 =
      .ok ⟨some 7, some 615, none, none, none, none⟩ :=
  C7_reschedule_excludes_self
    ⟨[⟨1, 0, 540, 720, true⟩], [⟨5, 1, 10, 7, 600, .scheduled, "", "", ""⟩]⟩
    ⟨1, true⟩ ⟨5, 1, 10, 7, 600, .scheduled, "", "", ""⟩ 7 615 0 0
    ⟨1, 0, 540, 720, true⟩ rfl rfl rfl (by decide) (by decide)

/-- C8: the create validation evaluates its checks in the fixed order
available flag, past time, schedule-window existence and bounds,
overlap, and the first failing check fixes the returned message: an
unavailable doctor is reported as such whatever else is wrong, a past
slot is reported as past even when no window exists for the weekday,
and so on down to the overlap rejection and the success case. -/
theorem C8_ordered_checks (st : SysState) (doctor : Doctor)
    (d t u nowD nowT : Nat) (s : DoctorSchedule) :
    (doctor.available = false →
      validateCreate st doctor d t u nowD nowT = .error "Doctor is not available") ∧
    (doctor.available = true → isPast d t nowD nowT = true →
      findSchedule st.schedules doctor.id (weekday d) = none →
      validateCreate st doctor d t u nowD nowT =
        .error "Cannot book appointments in the past") ∧
    (doctor.available = true → isPast d t nowD nowT = false →
      findSchedule st.schedules doctor.id (weekday d) = none →
      validateCreate st doctor d t u nowD nowT =
        .error ("Doctor is not available on " ++ dayName (weekday d))) ∧
    (doctor.available = true → isPast d t nowD nowT = false →
      findSchedule st.schedules doctor.id (weekday d) = some s →
      (t < s.start_time ∨ t ≥ s.end_time) →
      validateCreate st doctor d t u nowD nowT =
        .error ("Appointment time must be between " ++ fmtTime s.start_time ++
          " and " ++ fmtTime s.end_time)) ∧
    (doctor.available = true → isPast d t nowD nowT = false →
      findSchedule st.schedules doctor.id (weekday d) = some s →
      ¬(t < s.start_time ∨ t ≥ s.end_time) →
      check_overlap st.appointments none doctor.id u d t = true →
      validateCreate st doctor d t u nowD nowT =
        .error "This time slot conflicts with an existing appointment. Please choose another time.") ∧
    (doctor.available = true → isPast d t nowD nowT = false →
      findSchedule st.schedules doctor.id (weekday d) = some s →
      ¬(t < s.start_time ∨ t ≥ s.end_time) →
      check_overlap st.appointments none doctor.id u d t = false →
      validateCreate st doctor d t u nowD nowT = .ok ()) := by
  refine ⟨?_, ?_, ?_, ?_, ?_, ?_⟩
  · intro h1; simp [validateCreate, h1]
  · intro h1 h2 _; simp [validateCreate, h1, h2]
  · intro h1 h2 h3; simp [validateCreate, h1, h2, h3]
  · intro h1 h2 h3 h4; simp [validateCreate, h1, h2, h3, h4]
  · intro h1 h2 h3 h4 h5; simp [validateCreate, h1, h2, h3, h4, h5]
  · intro h1 h2 h3 h4 h5; simp [validateCreate, h1, h2, h3, h4, h5]

theorem C8_witness :
    validateCreate ⟨[], [⟨1, 1, 10, 0, 0, .scheduled, "", "", ""⟩]⟩ ⟨1, false⟩ 0 0 10 5 0 =
      .error "Doctor is not available" ∧
    validateCreate ⟨[], []⟩ ⟨1, true⟩ 0 0 10 5 0 =
      .error "Cannot book appointments in the past" :=
  ⟨(C8_ordered_checks ⟨[], [⟨1, 1, 10, 0, 0, .scheduled, "", "", ""⟩]⟩ ⟨1, false⟩
      0 0 10 5 0 ⟨0, 0, 0, 0, false⟩).1 rfl,
   (C8_ordered_checks ⟨[], []⟩ ⟨1, true⟩ 0 0 10 5 0 ⟨0, 0, 0, 0, false⟩).2.1 rfl rfl rfl⟩

theorem nextBoundary_gt (current : Nat) : current < nextBoundary current := by
  unfold nextBoundary
  by_cases hm : current % 60 + 30 ≥ 60 <;> simp [hm] <;> omega

theorem nextBoundary_lt (current : Nat) (h : current < 1410) :
    nextBoundary current < 1440 := by
  unfold nextBoundary
  by_cases hm : current % 60 + 30 ≥ 60 <;> simp [hm] <;> omega

theorem slotsGo_isSome (booked : List Nat) (end_time : Nat) (he : end_time ≤ 1410) :
    ∀ fuel current, end_time - current < fuel →
      (slotsGo booked end_time fuel current).isSome = true := by
  intro fuel
  induction fuel with
  | zero => intro current h; omega
  | succ n ih =>
    intro current h
    by_cases hc : current < end_time
    · have hgt := nextBoundary_gt current
      have hlt : nextBoundary current < 1440 := nextBoundary_lt current (by omega)
      have h1440 : ¬ nextBoundary current ≥ 1440 := by omega
      have hrec := ih (nextBoundary current) (by omega)
      simp only [slotsGo, hc, if_true, h1440, if_false]
      cases hx : slotsGo booked end_time n (nextBoundary current) with
      | none => rw [hx] at hrec; simp at hrec
      | some rest => simp
    · simp [slotsGo, hc]

/-- C9: a window reaching past 23:30 can drive the slot loop to build
the hour value 24 and fail instead of answering — the enabled window
23:00 to 23:59 makes the availability request raise (the boundary
23:30 steps to hour 24) — while slot generation always returns a slot
list for windows ending by 23:30, whose boundaries plus 30 minutes all
stay within the same day. -/
theorem C9_midnight_overflow :
    doctor_availability ⟨[⟨1, 0, 1380, 1439, true⟩], []⟩ ⟨1, true⟩ 7 = none ∧
    nextBoundary 1410 = 24 * 60 ∧
    ∀ (st : SysState) (doctor : Doctor) (date : Nat) (s : DoctorSchedule),
      findSchedule st.schedules doctor.id (weekday date) = some s →
      s.end_time ≤ 1410 →
      (doctor_availability st doctor date).isSome = true := by
  refine ⟨rfl, rfl, ?_⟩
  intro st doctor date s hs he
  simp only [doctor_availability, hs]
  cases hx : slotsGo ((st.appointments.filter fun a =>
      a.doctor == doctor.id && a.scheduled_date == date && a.status.isActive).map
      (fun a => a.scheduled_time)) s.end_time (s.end_time + 1) s.start_time with
  | none =>
      have h := slotsGo_isSome ((st.appointments.filter fun a =>
        a.doctor == doctor.id && a.scheduled_date == date && a.status.isActive).map
        (fun a => a.scheduled_time)) s.end_time he (s.end_time + 1) s.start_time (by omega)
      rw [hx] at h
      simp at h
  | some slots => simp

theorem C9_witness :
    (doctor_availability ⟨[⟨1, 0, 540, 720, true⟩], []⟩ ⟨1, true⟩ 7).isSome = true :=
  C9_midnight_overflow.2.2 ⟨[⟨1, 0, 540, 720, true⟩], []⟩ ⟨1, true⟩ 7
    ⟨1, 0, 540, 720, true⟩ rfl (by decide)

/-- C10: an update payload that carries neither a new date nor a new
time skips the availability, past-time, schedule-window and overlap
checks entirely: it is accepted unchanged for every store, doctor and
appointment, however many booking invariants the ambient state
violates. -/
theorem C10_no_revalidation (st : SysState) (doctor : Doctor) (inst : Appointment)
    (stat : Option Status) (r n p : Option String) (nowD nowT : Nat) :
    validateUpdate st doctor inst ⟨none, none, stat, r, n, p⟩ nowD nowT =
      .ok ⟨none, none, stat, r, n, p⟩ :=
  validateUpdate_skip st doctor inst stat r n p nowD nowT
